import Mathlib

/-!
Verification of the research-agent orchestrator and its evaluation harness.

The definitions below are a shallow embedding of the TypeScript sources:
the model registry and researchFlow error classification (src/agent.ts),
the Tavily search wrapper (src/search.ts), and the evaluation harness with
its judgeFlow (src/evaluator.ts).  Machine strings are Lean String values,
JavaScript numbers are modelled by Rat, thrown values by an explicit sum
type, and the external generation and search backends by oracle arguments.
-/

/-! ### String helpers: JavaScript String.prototype.includes -/

/-- Substring occurrence test over character lists, matching the semantics
of the JavaScript includes method used by the error classifier. -/
def containsSubstrAux (pat : List Char) : List Char → Bool
  | [] => pat.isEmpty
  | c :: cs => pat.isPrefixOf (c :: cs) || containsSubstrAux pat cs

/-- JavaScript style substring containment on strings. -/
def containsSubstr (s pat : String) : Bool :=
  containsSubstrAux pat.data s.data

/-! ### Model registry (src/agent.ts lines 11-49, 119-124, 190-197) -/

/-- Providers recognised by the catalog, from the ModelProvider type. -/
inductive ModelProvider where
  | gemini
  | openai
  deriving DecidableEq, Repr

/-- One catalog entry, from the ModelConfig interface. -/
structure ModelConfig where
  provider : ModelProvider
  modelName : String
  displayName : String
  deriving DecidableEq, Repr

/-- The static ordered catalog AVAILABLE_MODELS from src/agent.ts. -/
def AVAILABLE_MODELS : List ModelConfig :=
  [ ⟨.openai, "openai/gpt-4o-mini", "GPT-4o Mini"⟩,
    ⟨.openai, "openai/gpt-4o", "GPT-4o"⟩,
    ⟨.gemini, "googleai/gemini-2.0-flash", "Gemini 2.0 Flash"⟩,
    ⟨.gemini, "googleai/gemini-1.5-flash", "Gemini 1.5 Flash"⟩ ]

/-- Presence of the two provider API keys, captured once at startup
(process.env.GEMINI_API_KEY and process.env.OPENAI_API_KEY coerced
to booleans, as the source does with a double negation). -/
structure Credentials where
  geminiApiKey : Bool
  openaiApiKey : Bool
  deriving DecidableEq, Repr

/-- getAvailableModels from src/agent.ts: the catalog filtered by the
presence of the credential of each entry provider. -/
def getAvailableModels (c : Credentials) : List ModelConfig :=
  AVAILABLE_MODELS.filter fun m =>
    match m.provider with
    | .gemini => c.geminiApiKey
    | .openai => c.openaiApiKey

/-- getDefaultModel from src/agent.ts.  The thrown configuration failure
is modelled by the Except error branch carrying the thrown message. -/
def getDefaultModel (c : Credentials) : Except String String :=
  if c.openaiApiKey then Except.ok "openai/gpt-4o-mini"
  else if c.geminiApiKey then Except.ok "googleai/gemini-2.0-flash"
  else Except.error "No API keys configured"

/-! ### Thrown values and the error taxonomy (src/agent.ts lines 100-117, 162-186) -/

/-- A JavaScript thrown value as seen by a catch block: either an Error
instance carrying its message, or any other value identified by its
string form. -/
inductive ThrownValue where
  | errorVal (message : String)
  | nonError (asString : String)
  deriving DecidableEq, Repr

/-- The message the evaluator extracts from a thrown value: the message
field of an Error instance, or the String conversion otherwise. -/
def thrownMessage : ThrownValue → String
  | .errorVal m => m
  | .nonError s => s

/-- Result of the researchFlow catch block: one of the two custom error
classes, or the original thrown value rethrown unmodified. -/
inductive ClassifiedError where
  | insufficientBalance (message : String)
  | rateLimit (message : String) (retryAfterSeconds : Nat)
  | unclassified (original : ThrownValue)
  deriving DecidableEq, Repr

/-- Message carried by a classified failure, as the evaluator catch block
would read it. -/
def classifiedMessage : ClassifiedError → String
  | .insufficientBalance m => m
  | .rateLimit m _ => m
  | .unclassified t => thrownMessage t

/-- The insufficient-balance test of the classifier (rule checked first). -/
def hasBalanceMarker (msg : String) : Bool :=
  containsSubstr msg "402" || containsSubstr msg "Insufficient Balance" ||
    containsSubstr msg "insufficient_quota"

/-- The rate-limit test of the classifier (rule checked second). -/
def hasRateLimitMarker (msg : String) : Bool :=
  containsSubstr msg "429" || containsSubstr msg "RESOURCE_EXHAUSTED" ||
    containsSubstr msg "rate" || containsSubstr msg "quota"

/-! ### The retry-in pattern of the rate-limit branch -/

/-- Value of a non-empty decimal digit list. -/
def digitsToNat (ds : List Char) : Nat :=
  ds.foldl (fun a c => a * 10 + (c.toNat - 48)) 0

/-- Ceiling of the matched decimal number: the integer part, plus one when
the fractional digits are not all zero.  This is Math.ceil composed with
parseFloat on the text matched by the capture group. -/
def ceilOfMatch (intDigits fracDigits : List Char) : Nat :=
  digitsToNat intDigits + (if fracDigits.any (fun c => c != '0') then 1 else 0)

/-- Attempt to read the number part of the pattern right after the literal
text, mirroring the regular expression digits group with its optional
fractional part. -/
def retryNumberAt (cs : List Char) : Option Nat :=
  let ds := cs.takeWhile Char.isDigit
  let rest := cs.dropWhile Char.isDigit
  if ds.isEmpty then none
  else
    match rest with
    | '.' :: rest2 =>
      let fs := rest2.takeWhile Char.isDigit
      if fs.isEmpty then some (digitsToNat ds) else some (ceilOfMatch ds fs)
    | _ => some (digitsToNat ds)

/-- Leftmost match of the case-folded pattern over an already lowercased
character list: find the first position where the literal "retry in " is
followed by at least one digit and read the ceiling of that number. -/
def findRetrySeconds : List Char → Option Nat
  | [] => none
  | c :: cs =>
    if ("retry in ".data).isPrefixOf (c :: cs) then
      match retryNumberAt ((c :: cs).drop 9) with
      | some n => some n
      | none => findRetrySeconds cs
    else findRetrySeconds cs

/-- Case folding of the diagnostic, character by character, realising the
case-insensitive flag of the regular expression. -/
def lowerChars (msg : String) : List Char :=
  msg.data.map Char.toLower

/-- Seconds carried by a RateLimitError built from the given diagnostic:
the matched number when the pattern is present, 30 otherwise. -/
def retryDelaySeconds (msg : String) : Nat :=
  (findRetrySeconds (lowerChars msg)).getD 30

/-- Message text of a RateLimitError built by the classifier. -/
def rateLimitMessage (s : Nat) : String :=
  "Rate limit exceeded. Please wait " ++ toString s ++
    " seconds or try a different model."

/-- Message text of an InsufficientBalanceError built by the classifier. -/
def insufficientBalanceMessage : String :=
  "Insufficient balance in your API account. Please add credits or try a different model."

/-- The catch block of researchFlow (src/agent.ts lines 162-186): only
Error instances are inspected; the balance rule is tried first, the
rate-limit rule second, and anything else is rethrown unmodified. -/
def classifyThrown : ThrownValue → ClassifiedError
  | .nonError s => .unclassified (.nonError s)
  | .errorVal msg =>
    if hasBalanceMarker msg then
      .insufficientBalance insufficientBalanceMessage
    else if hasRateLimitMarker msg then
      .rateLimit (rateLimitMessage (retryDelaySeconds msg)) (retryDelaySeconds msg)
    else
      .unclassified (.errorVal msg)

/-! ### researchFlow result handling (src/agent.ts lines 84-98, 127-188) -/

/-- One attributed source of the structured answer schema. -/
structure Source where
  title : String
  url : String
  deriving DecidableEq, Repr

/-- The structured answer produced by researchFlow (AnswerSchema). -/
structure Answer where
  answer : String
  sources : List Source
  deriving DecidableEq, Repr

/-- What the generation backend hands back when it completes without
throwing: an optional structured object and optional raw text. -/
structure GenResult where
  output : Option Answer
  text : Option String
  deriving DecidableEq, Repr

/-- The success path of researchFlow: return the structured object as is
when present, otherwise degrade to the raw text or the placeholder, with
an empty source list. -/
def handleGenResult (r : GenResult) : Answer :=
  match r.output with
  | some o => o
  | none => ⟨r.text.getD "Could not generate a response.", []⟩

/-- Outcome of the one generation request issued by researchFlow, the
opaque external collaborator of the flow. -/
inductive BackendOutcome where
  | completes (result : GenResult)
  | throws (e : ThrownValue)
  deriving DecidableEq, Repr

/-- researchFlow from src/agent.ts as a function of the backend outcome:
a completed generation goes through the output handling above, and a
thrown value goes through the catch-block classifier. -/
def researchFlow (backend : BackendOutcome) : Except ClassifiedError Answer :=
  match backend with
  | .completes r => .ok (handleGenResult r)
  | .throws e => .error (classifyThrown e)

/-! ### Search wrapper (src/search.ts) -/

/-- One search hit as used by the tool definition. -/
structure SearchResult where
  title : String
  url : String
  content : String
  deriving DecidableEq, Repr

/-- Response shape of the external search provider. -/
structure SearchResponse where
  results : List SearchResult
  answer : Option String
  deriving DecidableEq, Repr

/-- The fixed parameter record passed to the provider search call. -/
structure SearchParams where
  searchDepth : String
  maxResults : Nat
  includeAnswer : Bool
  includeRawContent : Bool
  includeImages : Bool
  deriving DecidableEq, Repr

/-- searchWeb from src/search.ts, over an oracle for the external client:
one call with the fixed parameters; a success is returned as is and a
failure is logged and rethrown unchanged. -/
def searchWeb (client : String → SearchParams → Except ThrownValue SearchResponse)
    (query : String) (numResults : Nat) : Except ThrownValue SearchResponse :=
  match client query ⟨"basic", numResults, true, false, false⟩ with
  | .ok response => .ok response
  | .error e => .error e

/-- searchWeb invoked without an explicit result count, which the source
defaults to 5. -/
def searchWebDefault (client : String → SearchParams → Except ThrownValue SearchResponse)
    (query : String) : Except ThrownValue SearchResponse :=
  searchWeb client query 5

/-! ### Judge flow and evaluation harness (src/evaluator.ts) -/

/-- Judge output schema JudgeOutputSchema: a numeric score and a reasoning
text.  JavaScript numbers are modelled by Rat. -/
structure JudgeResult where
  score : Rat
  reasoning : String
  deriving DecidableEq, Repr

/-- What the judge generation call hands back when it completes without
throwing: an optional structured object. -/
structure JudgeGenResult where
  output : Option JudgeResult
  deriving DecidableEq, Repr

/-- judgeFlow from src/evaluator.ts lines 38-75 as a function of the
completed judge generation result: the structured object when present,
otherwise a zero score with a fixed reasoning text. -/
def judgeFlow (r : JudgeGenResult) : JudgeResult :=
  match r.output with
  | some o => o
  | none => ⟨0, "Failed to get judge response"⟩

/-- One test case of the persisted dataset. -/
structure TestCase where
  id : String
  question : String
  expected_facts : List String
  deriving DecidableEq, Repr

/-- One recorded evaluation row (EvaluationResult in src/evaluator.ts). -/
structure EvaluationResult where
  id : String
  question : String
  answerPreview : String
  score : Rat
  reasoning : String
  success : Bool
  error : Option String
  deriving DecidableEq, Repr

/-- truncate from src/evaluator.ts lines 85-88. -/
def truncate (text : String) (maxLength : Nat) : String :=
  if text.length ≤ maxLength then text else text.take maxLength ++ "..."

/-- Behavior of the judge step of one case: the judge generation either
throws or completes with a result.  A throw inside judgeFlow is not
caught there and reaches the evaluator catch block as the raw value. -/
inductive JudgeStep where
  | throws (e : ThrownValue)
  | completes (j : JudgeGenResult)
  deriving DecidableEq, Repr

/-- Behavior of the two upstream calls made for one test case. -/
structure CaseBehavior where
  research : BackendOutcome
  judge : JudgeStep
  deriving DecidableEq, Repr

/-- Whether the case behavior makes one of the two steps fail. -/
def CaseBehavior.fails : CaseBehavior → Bool
  | ⟨.throws _, _⟩ => true
  | ⟨.completes _, .throws _⟩ => true
  | ⟨.completes _, .completes _⟩ => false

/-- The row pushed by the evaluator catch block (lines 208-216). -/
def failureResult (tc : TestCase) (errorMessage : String) : EvaluationResult :=
  ⟨tc.id, tc.question, "N/A", 0, "Error: " ++ errorMessage, false, some errorMessage⟩

/-- The try block body of one loop iteration (lines 164-217): run the
research flow, then the judge flow on its answer, and push a success row;
any failure is caught and pushed as a failure row carrying the message of
the thrown value. -/
def evalCase (tc : TestCase) (b : CaseBehavior) : EvaluationResult :=
  match researchFlow b.research with
  | .error ce => failureResult tc (classifiedMessage ce)
  | .ok agentResponse =>
    match b.judge with
    | .throws e => failureResult tc (thrownMessage e)
    | .completes j =>
      let judgeResult := judgeFlow j
      ⟨tc.id, tc.question, truncate agentResponse.answer 150,
        judgeResult.score, judgeResult.reasoning, true, none⟩

/-- The sequential evaluation loop of runEvaluations (lines 152-223):
each case appends exactly one row to the accumulated results array. -/
def runEvaluations (cases : List (TestCase × CaseBehavior)) : List EvaluationResult :=
  cases.foldl (fun results cb => results ++ [evalCase cb.1 cb.2]) []

/-! ### Aggregation (src/evaluator.ts lines 230-254) -/

/-- The successful rows, as filtered by the summary code. -/
def successfulResults (results : List EvaluationResult) : List EvaluationResult :=
  results.filter fun r => r.success

/-- The reduce over successful rows computing the score sum. -/
def totalScore (results : List EvaluationResult) : Rat :=
  (successfulResults results).foldl (fun sum r => sum + r.score) 0

/-- averageScore: mean over successful rows, zero when none succeeded. -/
def averageScore (results : List EvaluationResult) : Rat :=
  if 0 < (successfulResults results).length then
    totalScore results / ((successfulResults results).length : Rat)
  else 0

/-- Number of successful rows with score at least 6. -/
def passCount (results : List EvaluationResult) : Nat :=
  ((successfulResults results).filter fun r => decide (6 ≤ r.score)).length

/-- The pass-rate fraction (the source multiplies it by 100 for display). -/
def passRate (results : List EvaluationResult) : Rat :=
  (passCount results : Rat) / (results.length : Rat)

/-! ### Spec-side aggregation definitions, for the refinement claim C3 -/

/-- Modelled from the spec wording: mean score over successful cases only,
zero if none succeeded. -/
def meanScoreSpec (results : List EvaluationResult) : Rat :=
  let ss := results.filter fun r => r.success
  if ss.isEmpty then 0 else (ss.map fun r => r.score).sum / (ss.length : Rat)

/-- Modelled from the spec wording: count of cases with success AND score
at least 6, divided by the total number of cases including failed ones. -/
def passRateSpec (results : List EvaluationResult) : Rat :=
  (((results.filter fun r => r.success && decide (6 ≤ r.score)).length : Nat) : Rat) /
    ((results.length : Nat) : Rat)

/-! ### Helper lemmas -/

theorem runEvaluationsFoldl (cases : List (TestCase × CaseBehavior))
    (acc : List EvaluationResult) :
    cases.foldl (fun results cb => results ++ [evalCase cb.1 cb.2]) acc =
      acc ++ cases.map (fun cb => evalCase cb.1 cb.2) := by
  induction cases generalizing acc with
  | nil => simp
  | cons c cs ih => simp [ih]

theorem runEvaluationsEqMap (cases : List (TestCase × CaseBehavior)) :
    runEvaluations cases = cases.map (fun cb => evalCase cb.1 cb.2) := by
  simp [runEvaluations, runEvaluationsFoldl]

theorem mapGetQ {α β : Type} (f : α → β) (l : List α) (j : Nat) :
    (l.map f)[j]? = Option.map f l[j]? := by
  induction l generalizing j with
  | nil => simp
  | cons a l ih => cases j <;> simp [ih]

theorem evalCaseOfFails (tc : TestCase) (b : CaseBehavior) (hb : b.fails = true) :
    ∃ m, evalCase tc b = failureResult tc m := by
  rcases b with ⟨research, judge⟩
  cases research with
  | throws e => exact ⟨classifiedMessage (classifyThrown e), rfl⟩
  | completes r =>
    cases judge with
    | throws e => exact ⟨thrownMessage e, rfl⟩
    | completes j => simp [CaseBehavior.fails] at hb

theorem foldlAddScore (l : List EvaluationResult) (a : Rat) :
    l.foldl (fun sum r => sum + r.score) a = a + (l.map fun r => r.score).sum := by
  induction l generalizing a with
  | nil => simp
  | cons x xs ih => rw [List.foldl_cons, ih, List.map_cons, List.sum_cons]; ring

theorem filterSuccessScore (results : List EvaluationResult) :
    ((results.filter fun r => r.success).filter fun r => decide (6 ≤ r.score)) =
      results.filter fun r => r.success && decide (6 ≤ r.score) := by
  induction results with
  | nil => rfl
  | cons r rs ih =>
    cases h : r.success
    · simp [List.filter_cons, h, ih]
    · cases h2 : decide (6 ≤ r.score) <;> simp [List.filter_cons, h, h2, ih]

/-! ### Claim C1 -/

/-- C1: any generation failure whose diagnostic text carries both an
insufficient-quota marker and a rate-limit marker is classified by
researchFlow as an InsufficientBalanceError and never as a
RateLimitError, because the balance rule is checked first. -/
theorem c1_balance_priority (msg : String)
    (hb : hasBalanceMarker msg = true) (hr : hasRateLimitMarker msg = true) :
    researchFlow (.throws (.errorVal msg)) =
      .error (.insufficientBalance insufficientBalanceMessage) ∧
    ∀ m k, researchFlow (.throws (.errorVal msg)) ≠ .error (.rateLimit m k) := by
  have h1 : researchFlow (.throws (.errorVal msg)) =
      .error (.insufficientBalance insufficientBalanceMessage) := by
    simp [researchFlow, classifyThrown, hb]
  refine ⟨h1, fun m k h => ?_⟩
  rw [h1] at h
  simp at h

/-- Witness for C1 at a diagnostic carrying the 402 marker and the rate
marker at once. -/
theorem c1_balance_priority_witness :
    hasBalanceMarker "Error 402: rate limit" = true ∧
    hasRateLimitMarker "Error 402: rate limit" = true ∧
    (researchFlow (.throws (.errorVal "Error 402: rate limit")) =
      .error (.insufficientBalance insufficientBalanceMessage) ∧
     ∀ m k, researchFlow (.throws (.errorVal "Error 402: rate limit")) ≠
       .error (.rateLimit m k)) :=
  ⟨by decide, by decide,
    c1_balance_priority "Error 402: rate limit" (by decide) (by decide)⟩

/-! ### Claim C10 -/

/-- C10: a thrown value that is not an Error instance is propagated to the
caller unmodified by the researchFlow catch block, and is never classified
as InsufficientBalanceError or RateLimitError, whatever markers its string
form carries. -/
theorem c10_non_error_propagates (s : String) :
    researchFlow (.throws (.nonError s)) = .error (.unclassified (.nonError s)) ∧
    (∀ m, researchFlow (.throws (.nonError s)) ≠ .error (.insufficientBalance m)) ∧
    (∀ m k, researchFlow (.throws (.nonError s)) ≠ .error (.rateLimit m k)) := by
  refine ⟨rfl, fun m h => ?_, fun m k h => ?_⟩ <;>
    simp [researchFlow, classifyThrown] at h

/-! ### Claim C4 -/

/-- C4 counterexample: the diagnostic "429 retry in 450" contains the text
"retry in 45" yet researchFlow classifies it as a RateLimitError carrying
450 seconds, not 45, because the regular expression reads the whole
number 450. -/
theorem c4_counterexample :
    containsSubstr "429 retry in 450" "retry in 45" = true ∧
    researchFlow (.throws (.errorVal "429 retry in 450")) =
      .error (.rateLimit (rateLimitMessage 450) 450) ∧
    (¬ ∃ m, researchFlow (.throws (.errorVal "429 retry in 450")) =
      .error (.rateLimit m 45)) ∧
    (450 : Nat) ≠ 45 := by
  refine ⟨by decide, rfl, ?_, by decide⟩
  rintro ⟨m, h⟩
  rw [show researchFlow (.throws (.errorVal "429 retry in 450")) =
      Except.error (ClassifiedError.rateLimit (rateLimitMessage 450) 450) from rfl] at h
  simp at h

/-- C4 as amended: when researchFlow classifies a failure as a
RateLimitError, the seconds carried are the ceiling of the first
"retry in N" match of the diagnostic, so a diagnostic whose first match
reads 45 yields 45, and a diagnostic with no match at all yields the
default 30. -/
theorem c4_retry_seconds (msg : String)
    (hb : hasBalanceMarker msg = false) (hr : hasRateLimitMarker msg = true) :
    researchFlow (.throws (.errorVal msg)) =
      .error (.rateLimit (rateLimitMessage (retryDelaySeconds msg)) (retryDelaySeconds msg)) ∧
    (findRetrySeconds (lowerChars msg) = some 45 → retryDelaySeconds msg = 45) ∧
    (findRetrySeconds (lowerChars msg) = none → retryDelaySeconds msg = 30) := by
  refine ⟨?_, ?_, ?_⟩
  · simp [researchFlow, classifyThrown, hb, hr]
  · intro h; simp [retryDelaySeconds, h]
  · intro h; simp [retryDelaySeconds, h]

/-- Witness for the amended C4 at the diagnostic "429 retry in 45". -/
theorem c4_retry_seconds_witness :
    hasBalanceMarker "429 retry in 45" = false ∧
    hasRateLimitMarker "429 retry in 45" = true ∧
    findRetrySeconds (lowerChars "429 retry in 45") = some 45 ∧
    retryDelaySeconds "429 retry in 45" = 45 ∧
    (researchFlow (.throws (.errorVal "429 retry in 45")) =
      .error (.rateLimit (rateLimitMessage (retryDelaySeconds "429 retry in 45"))
        (retryDelaySeconds "429 retry in 45")) ∧
     (findRetrySeconds (lowerChars "429 retry in 45") = some 45 →
       retryDelaySeconds "429 retry in 45" = 45) ∧
     (findRetrySeconds (lowerChars "429 retry in 45") = none →
       retryDelaySeconds "429 retry in 45" = 30)) :=
  ⟨by decide, by decide, by decide, by decide,
    c4_retry_seconds "429 retry in 45" (by decide) (by decide)⟩

/-! ### Claim C5 -/

/-- C5: when the backend completes but its result lacks a structured
object, researchFlow does not fail: it returns the raw text of the
backend, or the fixed placeholder when the raw text is also absent, with
an empty source list. -/
theorem c5_graceful_degradation (r : GenResult) (h : r.output = none) :
    ∃ a, researchFlow (.completes r) = .ok ⟨a, []⟩ ∧
      (∀ t, r.text = some t → a = t) ∧
      (r.text = none → a = "Could not generate a response.") := by
  refine ⟨r.text.getD "Could not generate a response.", ?_, ?_, ?_⟩
  · simp [researchFlow, handleGenResult, h]
  · intro t ht; simp [ht]
  · intro ht; simp [ht]

/-- Witness for C5 at a backend result carrying raw text only. -/
theorem c5_graceful_degradation_witness :
    GenResult.output ⟨none, some "raw text"⟩ = none ∧
    ∃ a, researchFlow (.completes ⟨none, some "raw text"⟩) = .ok ⟨a, []⟩ ∧
      (∀ t, GenResult.text ⟨none, some "raw text"⟩ = some t → a = t) ∧
      (GenResult.text ⟨none, some "raw text"⟩ = none →
        a = "Could not generate a response.") :=
  ⟨rfl, c5_graceful_degradation ⟨none, some "raw text"⟩ rfl⟩

/-! ### Claim C6 -/

/-- C6: with at least one provider key present, getAvailableModels is
non-empty, equals the static catalog restricted to the entries whose
provider credential is present, and is a sublist of the catalog, hence in
catalog declaration order. -/
theorem c6_available_models (c : Credentials)
    (h : c.geminiApiKey = true ∨ c.openaiApiKey = true) :
    getAvailableModels c ≠ [] ∧
    getAvailableModels c = AVAILABLE_MODELS.filter (fun m =>
      match m.provider with
      | .gemini => c.geminiApiKey
      | .openai => c.openaiApiKey) ∧
    List.Sublist (getAvailableModels c) AVAILABLE_MODELS := by
  refine ⟨?_, rfl, List.filter_sublist _⟩
  rcases c with ⟨g, o⟩
  cases g <;> cases o
  · rcases h with h | h <;> simp at h
  · decide
  · decide
  · decide

/-- Witness for C6 at the configuration with only the OpenAI key. -/
theorem c6_available_models_witness :
    getAvailableModels ⟨false, true⟩ ≠ [] ∧
    getAvailableModels ⟨false, true⟩ = AVAILABLE_MODELS.filter (fun m =>
      match m.provider with
      | .gemini => Credentials.geminiApiKey ⟨false, true⟩
      | .openai => Credentials.openaiApiKey ⟨false, true⟩) ∧
    List.Sublist (getAvailableModels ⟨false, true⟩) AVAILABLE_MODELS :=
  c6_available_models ⟨false, true⟩ (Or.inr rfl)

/-! ### Claim C7 -/

/-- C7: getDefaultModel returns the model name of the first entry of
getAvailableModels for every credential configuration, in particular the
GPT-4o Mini name whenever the OpenAI key is present and the Gemini 2.0
Flash name with only the Gemini key, and fails with the configuration
error when the available list is empty. -/
theorem c7_default_model :
    (∀ c : Credentials, getDefaultModel c =
      (match getAvailableModels c with
       | [] => Except.error "No API keys configured"
       | m :: _ => Except.ok m.modelName)) ∧
    getDefaultModel ⟨false, true⟩ = Except.ok "openai/gpt-4o-mini" ∧
    getDefaultModel ⟨true, true⟩ = Except.ok "openai/gpt-4o-mini" ∧
    getDefaultModel ⟨true, false⟩ = Except.ok "googleai/gemini-2.0-flash" ∧
    getAvailableModels ⟨false, false⟩ = [] ∧
    getDefaultModel ⟨false, false⟩ = Except.error "No API keys configured" := by
  refine ⟨?_, rfl, rfl, rfl, rfl, rfl⟩
  intro c
  rcases c with ⟨g, o⟩
  cases g <;> cases o <;> rfl

/-! ### Claim C8 -/

/-- C8: searchWeb makes the one call its body contains, with the fixed
parameters basic depth, answer synthesis on, raw content and images off,
passing the requested result count through (5 when the argument is
omitted); its value is exactly the provider response, so a provider
failure is rethrown unchanged. -/
theorem c8_search_call
    (client : String → SearchParams → Except ThrownValue SearchResponse)
    (query : String) (numResults : Nat) :
    searchWeb client query numResults =
      client query ⟨"basic", numResults, true, false, false⟩ ∧
    searchWebDefault client query = client query ⟨"basic", 5, true, false, false⟩ ∧
    (∀ e, client query ⟨"basic", numResults, true, false, false⟩ = .error e →
      searchWeb client query numResults = .error e) := by
  have h1 : ∀ n, searchWeb client query n =
      client query ⟨"basic", n, true, false, false⟩ := by
    intro n
    unfold searchWeb
    cases client query ⟨"basic", n, true, false, false⟩ <;> rfl
  exact ⟨h1 numResults, h1 5, fun e he => (h1 numResults).trans he⟩

/-! ### Claim C2 -/

/-- C2: over any list of test cases in which case k fails in one of the
two flow calls, runEvaluations still yields one row per case, row k is the
failure row with success false, score zero and an Error-prefixed
reasoning, and every other case, before or after k, is still evaluated
and recorded as its own row. -/
theorem c2_partial_failure_isolation (cases : List (TestCase × CaseBehavior))
    (k : Nat) (tc : TestCase) (b : CaseBehavior)
    (hget : cases[k]? = some (tc, b)) (hfail : b.fails = true) :
    (runEvaluations cases).length = cases.length ∧
    (∃ m : String,
      (runEvaluations cases)[k]? = some (failureResult tc m) ∧
      (failureResult tc m).success = false ∧
      (failureResult tc m).score = 0 ∧
      (failureResult tc m).reasoning = "Error: " ++ m) ∧
    (∀ (j : Nat) (tcj : TestCase) (bj : CaseBehavior), cases[j]? = some (tcj, bj) →
      (runEvaluations cases)[j]? = some (evalCase tcj bj)) := by
  have hlen : (runEvaluations cases).length = cases.length := by
    simp [runEvaluationsEqMap]
  have hmap : ∀ (j : Nat), (runEvaluations cases)[j]? =
      Option.map (fun cb => evalCase cb.1 cb.2) cases[j]? := by
    intro j
    rw [runEvaluationsEqMap]
    exact mapGetQ _ _ _
  refine ⟨hlen, ?_, ?_⟩
  · obtain ⟨m, hm⟩ := evalCaseOfFails tc b hfail
    refine ⟨m, ?_, rfl, rfl, rfl⟩
    rw [hmap k, hget]
    simp [hm]
  · intro j tcj bj hj
    rw [hmap j, hj]
    rfl

/-- Sample test cases and behaviors for the C2 witness: the first case
fails in the research step, the second succeeds end to end. -/
def sampleCaseA : TestCase := ⟨"t1", "q1", ["f1"]⟩

def sampleCaseB : TestCase := ⟨"t2", "q2", ["f2"]⟩

def sampleFailing : CaseBehavior :=
  ⟨.throws (.errorVal "boom"), .completes ⟨some ⟨7, "fine"⟩⟩⟩

def sampleSucceeding : CaseBehavior :=
  ⟨.completes ⟨some ⟨"ans", []⟩, some "ans"⟩, .completes ⟨some ⟨8, "good"⟩⟩⟩

def sampleCases : List (TestCase × CaseBehavior) :=
  [(sampleCaseA, sampleFailing), (sampleCaseB, sampleSucceeding)]

/-- Witness for C2 on a two-case run whose first case fails. -/
theorem c2_partial_failure_isolation_witness :
    (runEvaluations sampleCases).length = sampleCases.length ∧
    (∃ m : String,
      (runEvaluations sampleCases)[0]? = some (failureResult sampleCaseA m) ∧
      (failureResult sampleCaseA m).success = false ∧
      (failureResult sampleCaseA m).score = 0 ∧
      (failureResult sampleCaseA m).reasoning = "Error: " ++ m) ∧
    (∀ (j : Nat) (tcj : TestCase) (bj : CaseBehavior), sampleCases[j]? = some (tcj, bj) →
      (runEvaluations sampleCases)[j]? = some (evalCase tcj bj)) :=
  c2_partial_failure_isolation sampleCases 0 sampleCaseA sampleFailing rfl rfl

/-! ### Claim C3 -/

/-- Three rows as in the spec scenario: scores 8 and 4 from successful
cases and a failed case recorded with score zero. -/
def exampleResults : List EvaluationResult :=
  [ ⟨"case-1", "q1", "p1", 8, "good", true, none⟩,
    ⟨"case-2", "q2", "p2", 4, "weak", true, none⟩,
    ⟨"case-3", "q3", "N/A", 0, "Error: boom", false, some "boom"⟩ ]

/-- C3: the harness mean is the mean score over successful rows only,
zero when none succeeded, and the pass rate is the number of rows with
success and score at least 6 over all rows including failed ones; on the
spec scenario with scores 8, 4 and a failed 0 this gives pass rate one
third and mean 6. -/
theorem c3_aggregation :
    (∀ results, averageScore results = meanScoreSpec results) ∧
    (∀ results, passRate results = passRateSpec results) ∧
    passRate exampleResults = 1/3 ∧
    averageScore exampleResults = 6 := by
  refine ⟨?_, ?_, ?_, ?_⟩
  · intro results
    simp only [averageScore, meanScoreSpec, totalScore, successfulResults]
    cases h : results.filter (fun r => r.success) with
    | nil => simp [h]
    | cons r rs => simp [h, foldlAddScore]
  · intro results
    unfold passRate passRateSpec passCount successfulResults
    rw [filterSuccessScore]
  · norm_num [exampleResults, passRate, passCount, successfulResults,
      List.filter_cons, List.filter_nil]
  · norm_num [exampleResults, averageScore, totalScore, successfulResults,
      List.filter_cons, List.filter_nil, List.foldl_cons, List.foldl_nil]

/-! ### Claim C9 -/

/-- C9: a judge generation call that completes with no structured output
makes judgeFlow return score zero with the fixed reasoning instead of
failing, so the harness records the case as a success with score zero and
the row passes the success filter that forms the mean-score denominator. -/
theorem c9_judge_missing_output (tc : TestCase) (r : GenResult)
    (rs1 rs2 : List EvaluationResult) :
    judgeFlow ⟨none⟩ = ⟨0, "Failed to get judge response"⟩ ∧
    (evalCase tc ⟨.completes r, .completes ⟨none⟩⟩).success = true ∧
    (evalCase tc ⟨.completes r, .completes ⟨none⟩⟩).score = 0 ∧
    (evalCase tc ⟨.completes r, .completes ⟨none⟩⟩).reasoning =
      "Failed to get judge response" ∧
    successfulResults (rs1 ++ evalCase tc ⟨.completes r, .completes ⟨none⟩⟩ :: rs2) =
      successfulResults rs1 ++
        evalCase tc ⟨.completes r, .completes ⟨none⟩⟩ :: successfulResults rs2 := by
  have hsucc : (evalCase tc ⟨.completes r, .completes ⟨none⟩⟩).success = true := rfl
  refine ⟨rfl, rfl, rfl, rfl, ?_⟩
  simp [successfulResults, List.filter_append, List.filter_cons, hsucc]
